import Mathlib

/-!
Shallow embedding of the addiction-support bot (`src/main.py`): the sqlite
persistence layer is modelled as lists of typed rows, the aiogram handlers as
pure functions from session/table state to new state plus an outbound reply,
and the notification scheduler's per-slot logic as a function of the send
outcome. Machine side effects (telegram I/O, logging, sleeps) are abstracted
into explicit outcome parameters; everything else follows the source
line by line.
-/

namespace Bot

/-! ### Configuration (main.py lines 41-46) -/

/-- `DEFAULT_TIMEZONE = os.getenv("DEFAULT_TIMEZONE", "Europe/Amsterdam")`,
with the environment left unset. -/
def DEFAULT_TIMEZONE : String := "Europe/Amsterdam"

/-- `DEFAULT_REMINDER_TIME = os.getenv("DEFAULT_REMINDER_TIME", "21:00")`. -/
def DEFAULT_REMINDER_TIME : String := "21:00"

/-- `ADMIN_USER_ID = int(os.getenv("ADMIN_USER_ID", "8513112712"))`: the
environment value parsed as an integer, with the hardcoded fallback used when
the variable is unset. -/
def admin_user_id_from_env (env : Option Int) : Int :=
  env.getD 8513112712

/-- `is_admin` (main.py lines 1228-1230): `user_id == ADMIN_USER_ID`, taking
the configured id as a parameter instead of a module global. -/
def is_admin (admin_id : Int) (user_id : Int) : Bool :=
  user_id == admin_id

/-! ### notifications_log (main.py lines 453-461, 514-524, 712-725)

`init_db` de-duplicates `notifications_log` by `(user_id, notification_type,
date)` and creates a unique index on that triple, so the table is modelled as
a list of key triples; `INSERT OR IGNORE` appends the key only when absent. -/

structure NotifKey where
  user_id : Int
  notification_type : String
  date : String
deriving DecidableEq

abbrev NotificationsLog := List NotifKey

/-- `log_notification` (main.py lines 712-717): `INSERT OR IGNORE` under the
unique index `idx_notifications_unique`. -/
def log_notification (t : NotificationsLog) (k : NotifKey) : NotificationsLog :=
  if k ∈ t then t else t ++ [k]

/-- `was_notification_sent` (main.py lines 720-725): `SELECT 1 ... WHERE` the
key triple matches; true when a row exists. -/
def was_notification_sent (t : NotificationsLog) (k : NotifKey) : Bool :=
  decide (k ∈ t)

/-! ### Scheduler send path (main.py lines 2949-2951, 2969-2989, 3020-3047) -/

/-- The telegram exception classes caught around the scheduler send
(main.py line 28 imports, lines 2979 and 3039-3043 handlers). -/
inductive TgError
  | retryAfter
  | forbidden
  | badRequest
  | networkError
  | other
deriving DecidableEq

/-- `_send_support_message` (main.py lines 2969-2989): the first send attempt
either succeeds, raises `TelegramRetryAfter` (in which case one retry is made
and its outcome is final), or raises some other error which propagates. The
two attempt outcomes are supplied by the environment. -/
def _send_support_message (attempt1 attempt2 : Except TgError Unit) : Except TgError Unit :=
  match attempt1 with
  | .ok _ => .ok ()
  | .error .retryAfter => attempt2
  | .error e => .error e

/-- One due slot of `scheduler_tick` (main.py lines 3029-3047): skip when a
record already exists; otherwise send, and only on a successful send append
the notification record (a raised send error is caught and logged, leaving
the table untouched). Returns the new table and whether a send was
attempted. -/
def scheduler_send_slot (t : NotificationsLog) (k : NotifKey)
    (attempt1 attempt2 : Except TgError Unit) : NotificationsLog × Bool :=
  if was_notification_sent t k then (t, false)
  else
    match _send_support_message attempt1 attempt2 with
    | .ok _ => (log_notification t k, true)
    | .error _ => (t, true)

/-! ### String helpers

Python's `str.split` and `int()` are embedded as structurally recursive
functions over the character list, so that concrete inputs evaluate in the
kernel. `int()` is modelled on non-negative digit strings, the only shape the
`"HH:MM"` inputs take. -/

def splitChars (sep : Char) : List Char → List (List Char)
  | [] => [[]]
  | c :: rest =>
    let r := splitChars sep rest
    if c = sep then [] :: r
    else
      match r with
      | [] => [[c]]
      | w :: ws => (c :: w) :: ws

def parseNatDigits : Option Nat → List Char → Option Nat
  | none, _ => none
  | some n, [] => some n
  | some n, c :: cs =>
    if c.isDigit then parseNatDigits (some (n * 10 + (c.toNat - 48))) cs else none

def parseIntStr (cs : List Char) : Option Int :=
  match cs with
  | [] => none
  | _ => (parseNatDigits (some 0) cs).map Int.ofNat

/-- `s.startswith(p)` over character lists. -/
def charsStart : List Char → List Char → Bool
  | _, [] => true
  | [], _ :: _ => false
  | c :: cs, p :: ps => if c = p then charsStart cs ps else false

/-- `callback.data.split(":")[-1]`. -/
def last_colon_component (data : String) : String :=
  String.mk ((splitChars ':' data.toList).getLastD [])

/-! ### Minute-of-day distance (main.py lines 2937-2951, 3020-3027) -/

/-- `_parse_hhmm` (main.py lines 2937-2946): split on ":", parse both parts
as integers, return `hh * 60 + mm` when in range, else `None`; any parse or
unpack failure is caught and yields `None`. -/
def _parse_hhmm (value : String) : Option Int :=
  match splitChars ':' value.toList with
  | [h, m] =>
    match parseIntStr h, parseIntStr m with
    | some hh, some mm =>
      if 0 ≤ hh ∧ hh ≤ 23 ∧ 0 ≤ mm ∧ mm ≤ 59 then some (hh * 60 + mm) else none
    | _, _ => none
  | _ => none

/-- `_minutes_diff` (main.py lines 2949-2951). -/
def _minutes_diff (a b : Int) : Int :=
  min |a - b| (1440 - |a - b|)

/-- The tolerance test of `scheduler_tick` (main.py lines 3025-3027): the slot
is skipped when the circular distance exceeds 1, due otherwise. -/
def slot_due (current_minutes target_minutes : Int) : Bool :=
  if _minutes_diff current_minutes target_minutes > 1 then false else true

/-! ### daily_logs (main.py lines 429-440, 644-674)

`daily_logs` carries `UNIQUE(user_id, date, addiction_code)`; the surrogate
`id` and `created_at` columns play no role in any queried behaviour and are
omitted. -/

structure LogRow where
  user_id : Int
  date : String
  addiction_code : String
  status : String
  craving_level : Option String
deriving DecidableEq

abbrev DailyLogs := List LogRow

/-- The `ON CONFLICT(user_id, date, addiction_code)` key test. -/
def logKeyMatch (u : Int) (d c : String) (r : LogRow) : Bool :=
  r.user_id == u && r.date == d && r.addiction_code == c

/-- `upsert_daily_log` (main.py lines 644-653): insert, or on key conflict
update `status` and `craving_level` of the existing row in place. -/
def upsert_daily_log (t : DailyLogs) (u : Int) (d c s : String)
    (cr : Option String) : DailyLogs :=
  if t.any (logKeyMatch u d c) then
    t.map fun r =>
      if logKeyMatch u d c r then { r with status := s, craving_level := cr } else r
  else t ++ [⟨u, d, c, s, cr⟩]

/-- One buffered session answer: `(addiction_code, status, craving_level)`,
the shape of one entry of the `logs` dict in the report session. -/
abbrev BufEntry := String × String × Option String

/-- The save loop of `report_support` (main.py lines 1793-1801): one
`upsert_daily_log` per buffered behavior. -/
def save_report_logs (t : DailyLogs) (u : Int) (d : String)
    (buf : List BufEntry) : DailyLogs :=
  buf.foldl (fun acc e => upsert_daily_log acc u d e.1 e.2.1 e.2.2) t

/-- The rows `get_today_logs` selects (main.py lines 656-664): all rows of
one user and one date. -/
def logs_for_date (t : DailyLogs) (u : Int) (d : String) : List LogRow :=
  t.filter fun r => r.user_id == u && r.date == d

/-- The behavior codes present for `(u, d)`. -/
def date_codes (t : DailyLogs) (u : Int) (d : String) : List String :=
  (logs_for_date t u d).map (·.addiction_code)

theorem any_keyMatch_iff (t : DailyLogs) (u : Int) (d c : String) :
    t.any (logKeyMatch u d c) = true ↔ c ∈ date_codes t u d := by
  simp only [List.any_eq_true, date_codes, logs_for_date, List.mem_map,
    List.mem_filter, logKeyMatch, Bool.and_eq_true, beq_iff_eq]
  constructor
  · rintro ⟨r, hr, ⟨h1, h2⟩, h3⟩
    exact ⟨r, ⟨hr, h1, h2⟩, h3⟩
  · rintro ⟨r, ⟨hr, h1, h2⟩, h3⟩
    exact ⟨r, hr, ⟨h1, h2⟩, h3⟩

/-- The conflict branch of the upsert rewrites `status`/`craving_level` in
place, so the codes present for any `(u, d)` are unchanged. -/
theorem date_codes_map_replace (u : Int) (d c s : String) (cr : Option String) :
    ∀ t : DailyLogs,
      date_codes (t.map fun r =>
        if logKeyMatch u d c r then { r with status := s, craving_level := cr } else r) u d
      = date_codes t u d
  | [] => rfl
  | r :: rs => by
    have ih := date_codes_map_replace u d c s cr rs
    by_cases hm : logKeyMatch u d c r = true
    · by_cases hp : (r.user_id == u && r.date == d) = true
      · simp only [date_codes, logs_for_date, List.map_cons, if_pos hm, List.filter_cons] at *
        simp only [hp, if_pos] at *
        simpa using ih
      · simp only [date_codes, logs_for_date, List.map_cons, if_pos hm, List.filter_cons] at *
        simp only [hp] at *
        simpa using ih
    · by_cases hp : (r.user_id == u && r.date == d) = true
      · simp only [date_codes, logs_for_date, List.map_cons, if_neg hm, List.filter_cons] at *
        simp only [hp, if_pos] at *
        simpa using ih
      · simp only [date_codes, logs_for_date, List.map_cons, if_neg hm, List.filter_cons] at *
        simp only [hp] at *
        simpa using ih

theorem date_codes_upsert (t : DailyLogs) (u : Int) (d c s : String) (cr : Option String) :
    date_codes (upsert_daily_log t u d c s cr) u d
      = if c ∈ date_codes t u d then date_codes t u d else date_codes t u d ++ [c] := by
  by_cases h : t.any (logKeyMatch u d c) = true
  · rw [if_pos ((any_keyMatch_iff t u d c).mp h)]
    unfold upsert_daily_log
    rw [if_pos h]
    exact date_codes_map_replace u d c s cr t
  · have hc : ¬ c ∈ date_codes t u d := fun hmem => h ((any_keyMatch_iff t u d c).mpr hmem)
    rw [if_neg hc]
    unfold upsert_daily_log
    rw [if_neg h]
    unfold date_codes logs_for_date
    rw [List.filter_append, List.map_append]
    simp

theorem date_codes_save_toFinset (u : Int) (d : String) :
    ∀ (buf : List BufEntry) (t : DailyLogs),
      (date_codes (save_report_logs t u d buf) u d).toFinset
        = (date_codes t u d).toFinset ∪ (buf.map (·.1)).toFinset
  | [], t => by simp [save_report_logs]
  | e :: es, t => by
    have ih := date_codes_save_toFinset u d es (upsert_daily_log t u d e.1 e.2.1 e.2.2)
    simp only [save_report_logs, List.foldl_cons] at *
    rw [ih, date_codes_upsert]
    by_cases hc : e.1 ∈ date_codes t u d
    · rw [if_pos hc, List.map_cons, List.toFinset_cons, Finset.union_insert,
        Finset.insert_eq_self.mpr (Finset.mem_union_left _ (List.mem_toFinset.mpr hc))]
    · rw [if_neg hc, List.toFinset_append, List.map_cons, List.toFinset_cons,
        List.toFinset_cons, List.toFinset_nil, Finset.union_assoc,
        Finset.insert_union, Finset.empty_union]

theorem date_codes_save_nodup (u : Int) (d : String) :
    ∀ (buf : List BufEntry) (t : DailyLogs),
      (date_codes t u d).Nodup → (date_codes (save_report_logs t u d buf) u d).Nodup
  | [], t => fun h => by simpa [save_report_logs] using h
  | e :: es, t => fun h => by
    have h2 : (date_codes (upsert_daily_log t u d e.1 e.2.1 e.2.2) u d).Nodup := by
      rw [date_codes_upsert]
      by_cases hc : e.1 ∈ date_codes t u d
      · rwa [if_pos hc]
      · rw [if_neg hc]
        simp [List.nodup_append, h, hc]
    have h3 := date_codes_save_nodup u d es (upsert_daily_log t u d e.1 e.2.1 e.2.2) h2
    simpa [save_report_logs, List.foldl_cons] using h3

theorem length_logs_for_date_eq (t : DailyLogs) (u : Int) (d : String) :
    (logs_for_date t u d).length = (date_codes t u d).length := by
  simp [date_codes]

/-! ### Daily-report conversation engine
(main.py lines 251-254, 1669-1831, 2530-2546, 2901-2926)

The aiogram per-user FSM state and data dict are modelled as a `Session`:
`state.get_data().get(key, default)` corresponds to the field defaults of
`emptySession`, `state.clear()` to `emptySession` itself. Each handler is
the body after the anti-flood guard (which returns early with no state
change) and maps the session — and for `report_support` the daily-log
table — to their new values plus the outbound reply. -/

inductive FSMState
  | answering_addiction
  | answering_craving
  | answering_support
  | admin_main
deriving DecidableEq

inductive Reply
  | ask_status (code : String)
  | relapse_support
  | ask_craving
  | ask_support
  | report_saved
  | emergency_help
  | main_menu_expired
  | start_prompt
  | admin_menu
  | toast (msg : String)
deriving DecidableEq

structure Session where
  fsm : Option FSMState
  report_date : Option String
  addictions : List String
  current_index : Nat
  logs : List BufEntry
  pending_relapse : Bool
deriving DecidableEq

def emptySession : Session :=
  { fsm := none, report_date := none, addictions := [], current_index := 0,
    logs := [], pending_relapse := false }

/-- `logs[code] = {"status": status}` (main.py line 1688): replace or append
the buffer entry for `code`, dropping any previously buffered craving. -/
def buf_set (buf : List BufEntry) (code status : String) : List BufEntry :=
  if buf.any (fun e => e.1 == code) then
    buf.map fun e => if e.1 == code then (code, status, none) else e
  else buf ++ [(code, status, none)]

/-- Dict access `logs.get(code)` on the session buffer. -/
def buf_lookup : List BufEntry → String → Option (String × Option String)
  | [], _ => none
  | e :: es, code => if e.1 == code then some e.2 else buf_lookup es code

/-- `report_status` (main.py lines 1669-1719): guard against an index past
the addiction list; record the status; on relapse keep the index and show
the relapse-support text; otherwise advance, moving to the craving question
after the last behavior. -/
def report_status (sess : Session) (status : String) : Session × Reply :=
  if h : sess.current_index < sess.addictions.length then
    let code := sess.addictions.get ⟨sess.current_index, h⟩
    let logs2 := buf_set sess.logs code status
    if status == "relapse" then
      ({ sess with logs := logs2, pending_relapse := true }, Reply.relapse_support)
    else if h2 : sess.current_index + 1 < sess.addictions.length then
      ({ sess with logs := logs2, current_index := sess.current_index + 1 },
        Reply.ask_status (sess.addictions.get ⟨sess.current_index + 1, h2⟩))
    else
      ({ sess with logs := logs2, fsm := some FSMState.answering_craving },
        Reply.ask_craving)
  else (sess, Reply.toast "Ошибка состояния")

/-- `report_continue` (main.py lines 1722-1751): advance past the
acknowledged relapse; next behavior, or the craving question after the
last one. -/
def report_continue (sess : Session) : Session × Reply :=
  if h : sess.current_index + 1 < sess.addictions.length then
    ({ sess with
        current_index := sess.current_index + 1
        pending_relapse := false
        fsm := some FSMState.answering_addiction },
      Reply.ask_status (sess.addictions.get ⟨sess.current_index + 1, h⟩))
  else
    ({ sess with fsm := some FSMState.answering_craving }, Reply.ask_craving)

/-- `report_craving` (main.py lines 1754-1777): the chosen level (skip →
`None`) is applied to every buffered behavior. -/
def report_craving (sess : Session) (craving : String) : Session × Reply :=
  let cv := if craving == "skip" then none else some craving
  ({ sess with
      logs := sess.logs.map (fun e => (e.1, e.2.1, cv))
      fsm := some FSMState.answering_support }, Reply.ask_support)

/-- `report_support` (main.py lines 1780-1816): one upsert per buffered
behavior, then the session is cleared; a needs-support answer shows the
emergency-help text, otherwise the saved confirmation. `report_date` is only
absent when the buffer is empty and no upsert reads it; the absent value is
rendered as `""` for the upsert argument. -/
def report_support (sess : Session) (t : DailyLogs) (user_id : Int)
    (needs_support : Bool) : DailyLogs × Session × Reply :=
  (save_report_logs t user_id (sess.report_date.getD "") sess.logs, emptySession,
    if needs_support then Reply.emergency_help else Reply.report_saved)

/-- `unknown_callback` (main.py lines 2901-2926): clear the session; an
onboarded user gets the state-outdated notice with the main menu, a
non-onboarded one a /start prompt. -/
def unknown_callback (sess : Session) (is_onboarded : Bool) : Session × Reply :=
  let _ := sess
  (emptySession, if is_onboarded then Reply.main_menu_expired else Reply.start_prompt)

/-- `menu_admin` (main.py lines 2530-2546): a non-admin user is rejected with
a toast and no state change. -/
def menu_admin (admin_id : Int) (user_id : Int) (sess : Session) : Session × Reply :=
  if !(is_admin admin_id user_id) then (sess, Reply.toast "Доступ запрещён.")
  else ({ sess with fsm := some FSMState.admin_main }, Reply.admin_menu)

/-- The router's dispatch over the report-flow callback patterns, in
registration order, with the catch-all `unknown_callback` last
(main.py lines 1669, 1722, 1754, 1780, 2901). The report handlers match on
the callback data alone — none carries a state filter — so each is reachable
from any session. Handlers outside the report flow and the catch-all are not
modelled. -/
def handle_callback (data : String) (sess : Session) (t : DailyLogs)
    (user_id : Int) (is_onboarded : Bool) : DailyLogs × Session × Reply :=
  if charsStart data.toList "report:status:".toList then
    let r := report_status sess (last_colon_component data)
    (t, r.1, r.2)
  else if data == "report:continue" then
    let r := report_continue sess
    (t, r.1, r.2)
  else if charsStart data.toList "report:craving:".toList then
    let r := report_craving sess (last_colon_component data)
    (t, r.1, r.2)
  else if charsStart data.toList "report:support:".toList then
    report_support sess t user_id (last_colon_component data == "yes")
  else
    let r := unknown_callback sess is_onboarded
    (t, r.1, r.2)

theorem buf_lookup_append_self (code status : String) :
    ∀ es : List BufEntry, es.any (fun e => e.1 == code) = false →
      buf_lookup (es ++ [(code, status, none)]) code = some (status, none)
  | [], _ => by simp [buf_lookup]
  | e :: es, h => by
    rw [List.any_cons, Bool.or_eq_false_iff] at h
    rw [List.cons_append]
    unfold buf_lookup
    rw [if_neg (by simp [h.1])]
    exact buf_lookup_append_self code status es h.2

theorem buf_lookup_set (code status : String) : ∀ buf : List BufEntry,
    buf_lookup (buf_set buf code status) code = some (status, none)
  | [] => by simp [buf_set, buf_lookup]
  | e :: es => by
    by_cases he : (e.1 == code) = true
    · unfold buf_set
      rw [if_pos (by simp [List.any_cons, he])]
      simp only [List.map_cons, if_pos he]
      unfold buf_lookup
      rw [if_pos (by simp)]
    · have he2 : (e.1 == code) = false := by simpa using he
      by_cases hany : (es.any (fun e2 => e2.1 == code)) = true
      · unfold buf_set
        rw [if_pos (by simp [List.any_cons, hany])]
        rw [List.map_cons, if_neg he]
        unfold buf_lookup
        rw [if_neg (by simp [he2])]
        have ih := buf_lookup_set code status es
        unfold buf_set at ih
        rwa [if_pos hany] at ih
      · have hanyc : ((e :: es).any (fun e2 => e2.1 == code)) = false := by
          simp only [List.any_cons, Bool.or_eq_false_iff]
          exact ⟨he2, Bool.eq_false_iff.mpr hany⟩
        unfold buf_set
        rw [if_neg (by simp [hanyc])]
        exact buf_lookup_append_self code status (e :: es) hanyc

/-- A two-behavior report session at index 0, as `menu_daily_report` creates
it (main.py lines 1622-1628). -/
def c4sess : Session :=
  { emptySession with
      fsm := some FSMState.answering_addiction
      report_date := some "2026-10-12"
      addictions := ["alcohol", "nicotine"] }

/-- A session holding leftover data but no report flow: what remains after a
restart or a foreign flow left data without an addiction list. -/
def staleSession : Session :=
  { emptySession with
      logs := [("alcohol", "clean", none)]
      report_date := some "2026-10-11" }

/-- A session in an unrelated state with an empty report buffer. -/
def c10sess : Session :=
  { emptySession with
      fsm := some FSMState.admin_main
      addictions := ["alcohol"] }

/-! ### Streak (main.py lines 677-691)

`get_streak` runs `SELECT date, status ... ORDER BY date DESC` and counts
leading `clean` rows. The dates are ISO `YYYY-MM-DD` TEXT values; sqlite's
default BINARY collation orders them bytewise, embedded here as codepoint
order on the character list, with the sort as an insertion sort. -/

def charListLt : List Char → List Char → Bool
  | [], [] => false
  | [], _ :: _ => true
  | _ :: _, [] => false
  | a :: as, b :: bs =>
    if a.toNat < b.toNat then true
    else if a.toNat = b.toNat then charListLt as bs
    else false

def strLt (a b : String) : Bool := charListLt a.toList b.toList

def insert_by_date_desc (r : LogRow) : List LogRow → List LogRow
  | [] => [r]
  | x :: xs => if strLt x.date r.date then r :: x :: xs else x :: insert_by_date_desc r xs

def sort_by_date_desc (rows : List LogRow) : List LogRow :=
  rows.foldr insert_by_date_desc []

/-- The counting loop of `get_streak` (main.py lines 685-691): count leading
`clean` rows, stop at the first other status. -/
def count_leading_clean : List LogRow → Nat
  | [] => 0
  | r :: rs => if r.status == "clean" then count_leading_clean rs + 1 else 0

/-- `get_streak` (main.py lines 677-691). -/
def get_streak (t : DailyLogs) (u : Int) (code : String) : Nat :=
  count_leading_clean (sort_by_date_desc
    (t.filter fun r => r.user_id == u && r.addiction_code == code))

theorem charListLt_asymm : ∀ {a b : List Char},
    charListLt a b = true → charListLt b a = false
  | [], [] => by simp [charListLt]
  | [], _ :: _ => fun _ => by simp [charListLt]
  | _ :: _, [] => fun h => by simp [charListLt] at h
  | a :: as, b :: bs => fun h => by
    unfold charListLt at h ⊢
    by_cases h1 : a.toNat < b.toNat
    · rw [if_neg (by omega), if_neg (by omega)]
    · by_cases h2 : a.toNat = b.toNat
      · rw [if_neg h1, if_pos h2] at h
        rw [if_neg (by omega), if_pos (by omega)]
        exact charListLt_asymm h
      · rw [if_neg h1, if_neg h2] at h
        exact absurd h (by simp)

theorem charListLt_trans : ∀ {a b c : List Char},
    charListLt a b = true → charListLt b c = true → charListLt a c = true
  | [], [], _, h1, _ => by simp [charListLt] at h1
  | [], _ :: _, [], _, h2 => by simp [charListLt] at h2
  | [], _ :: _, _ :: _, _, _ => by simp [charListLt]
  | _ :: _, [], _, h1, _ => by simp [charListLt] at h1
  | _ :: _, _ :: _, [], _, h2 => by simp [charListLt] at h2
  | a :: as, b :: bs, c :: cs, h1, h2 => by
    unfold charListLt at h1 h2 ⊢
    by_cases hab : a.toNat < b.toNat
    · by_cases hbc : b.toNat < c.toNat
      · rw [if_pos (by omega)]
      · by_cases hbc2 : b.toNat = c.toNat
        · rw [if_pos (by omega)]
        · rw [if_neg hbc, if_neg hbc2] at h2
          exact absurd h2 (by simp)
    · by_cases hab2 : a.toNat = b.toNat
      · by_cases hbc : b.toNat < c.toNat
        · rw [if_pos (by omega)]
        · by_cases hbc2 : b.toNat = c.toNat
          · rw [if_neg hab, if_pos hab2] at h1
            rw [if_neg hbc, if_pos hbc2] at h2
            rw [if_neg (by omega), if_pos (by omega)]
            exact charListLt_trans h1 h2
          · rw [if_neg hbc, if_neg hbc2] at h2
            exact absurd h2 (by simp)
      · rw [if_neg hab, if_neg hab2] at h1
        exact absurd h1 (by simp)

/-! ### Timezone resolution (main.py lines 597-602, 1234-1252, 3007-3011) -/

/-- `get_user_timezone` (main.py lines 597-602): a missing row or a
NULL/empty stored value falls back to the default; `none` models a missing
row or NULL, `""` the empty string — both falsy in the source. -/
def get_user_timezone (stored : Option String) : String :=
  match stored with
  | none => DEFAULT_TIMEZONE
  | some s => if s == "" then DEFAULT_TIMEZONE else s

/-- The `try: tz = ZoneInfo(tz_str) except Exception: tz = ZoneInfo(DEFAULT_TIMEZONE)`
pattern (main.py lines 1237-1240, 1248-1251 and 3008-3011). `zoneinfo`
abstracts the zone database; a `none` lookup models a raised exception, so a
`none` overall result models an exception escaping to the caller. -/
def try_zoneinfo {α : Type} (zoneinfo : String → Option α) (tz_str : String) : Option α :=
  match zoneinfo tz_str with
  | some tz => some tz
  | none => zoneinfo DEFAULT_TIMEZONE

/-- Zone resolution of `get_user_date` / `get_user_now`
(main.py lines 1234-1252), fed by `get_user_timezone`. -/
def get_user_zone {α : Type} (zoneinfo : String → Option α)
    (stored : Option String) : Option α :=
  try_zoneinfo zoneinfo (get_user_timezone stored)

/-- Zone resolution inside `scheduler_tick` (main.py lines 3007-3011):
`tz_str = user.get("timezone") or DEFAULT_TIMEZONE`, then the same
try/except. -/
def scheduler_user_zone {α : Type} (zoneinfo : String → Option α)
    (stored : Option String) : Option α :=
  try_zoneinfo zoneinfo
    (match stored with
     | none => DEFAULT_TIMEZONE
     | some s => if s == "" then DEFAULT_TIMEZONE else s)

/-! ### Theorems -/

/-- C1: a second insert for the same `(user, kind, local-date)` key is a
no-op leaving the table unchanged, any insert leaves at most one record for a
key that had at most one, and after one attempt succeeds the key is present,
so a later attempt never inserts again. -/
theorem log_notification_at_most_once (t : NotificationsLog) (k : NotifKey)
    (h : t.count k ≤ 1) :
    (∀ k2, ((log_notification t k2).count k) ≤ 1)
    ∧ (k ∈ t → log_notification t k = t)
    ∧ k ∈ log_notification t k
    ∧ log_notification (log_notification t k) k = log_notification t k := by
  refine ⟨?_, ?_, ?_, ?_⟩
  · intro k2
    unfold log_notification
    by_cases hk2 : k2 ∈ t
    · simpa [hk2] using h
    · simp only [hk2, if_false, List.count_append]
      rcases eq_or_ne k k2 with rfl | hne
      · have : t.count k = 0 := List.count_eq_zero.mpr hk2
        simp [this, List.count_singleton]
      · have : List.count k [k2] = 0 := by
          simp [List.count_singleton, hne]
        omega
  · intro hk
    simp [log_notification, hk]
  · by_cases hk : k ∈ t
    · simp [log_notification, hk]
    · simp [log_notification, hk]
  · by_cases hk : k ∈ t
    · simp [log_notification, hk]
    · simp [log_notification, hk]

/-- Witness for C1 at a concrete key and table. -/
theorem log_notification_at_most_once_witness :
    (∀ k2, ((log_notification [NotifKey.mk 1 "reminder" "2026-10-12"]
        k2).count (NotifKey.mk 1 "reminder" "2026-10-12")) ≤ 1)
    ∧ (NotifKey.mk 1 "reminder" "2026-10-12" ∈ [NotifKey.mk 1 "reminder" "2026-10-12"] →
        log_notification [NotifKey.mk 1 "reminder" "2026-10-12"]
          (NotifKey.mk 1 "reminder" "2026-10-12") = [NotifKey.mk 1 "reminder" "2026-10-12"])
    ∧ NotifKey.mk 1 "reminder" "2026-10-12" ∈
        log_notification [NotifKey.mk 1 "reminder" "2026-10-12"] (NotifKey.mk 1 "reminder" "2026-10-12")
    ∧ log_notification
        (log_notification [NotifKey.mk 1 "reminder" "2026-10-12"] (NotifKey.mk 1 "reminder" "2026-10-12"))
        (NotifKey.mk 1 "reminder" "2026-10-12")
      = log_notification [NotifKey.mk 1 "reminder" "2026-10-12"] (NotifKey.mk 1 "reminder" "2026-10-12") :=
  log_notification_at_most_once [NotifKey.mk 1 "reminder" "2026-10-12"]
    (NotifKey.mk 1 "reminder" "2026-10-12") (by decide)

/-- C3: with no rows yet for `(user, date)`, completing a report whose buffer
holds N distinct behavior codes yields exactly N daily-log rows for that
key; saving a second buffer with the same codes and different statuses or
cravings (the edit flow) still yields exactly N rows, each overwritten in
place. -/
theorem report_rows_exact (t : DailyLogs) (u : Int) (d : String)
    (buf buf2 : List BufEntry)
    (hempty : logs_for_date t u d = [])
    (hnodup : (buf.map (·.1)).Nodup)
    (hsame : buf2.map (·.1) = buf.map (·.1)) :
    (logs_for_date (save_report_logs t u d buf) u d).length = buf.length
    ∧ (logs_for_date (save_report_logs (save_report_logs t u d buf) u d buf2) u d).length
        = buf.length := by
  have hedc : date_codes t u d = [] := by simp [date_codes, hempty]
  have hnil : (date_codes t u d).Nodup := by rw [hedc]; exact List.nodup_nil
  have nodup1 : (date_codes (save_report_logs t u d buf) u d).Nodup :=
    date_codes_save_nodup u d buf t hnil
  have fin1 : (date_codes (save_report_logs t u d buf) u d).toFinset
      = (buf.map (·.1)).toFinset := by
    rw [date_codes_save_toFinset, hedc]
    simp
  have c2 := List.toFinset_card_of_nodup hnodup
  constructor
  · have c1 := List.toFinset_card_of_nodup nodup1
    rw [fin1] at c1
    have hlen : (date_codes (save_report_logs t u d buf) u d).length
        = (buf.map (·.1)).length := c1.symm.trans c2
    rw [length_logs_for_date_eq, hlen, List.length_map]
  · have nodup2 : (date_codes (save_report_logs (save_report_logs t u d buf) u d buf2) u d).Nodup :=
      date_codes_save_nodup u d buf2 (save_report_logs t u d buf) nodup1
    have fin2 : (date_codes (save_report_logs (save_report_logs t u d buf) u d buf2) u d).toFinset
        = (buf.map (·.1)).toFinset := by
      rw [date_codes_save_toFinset, fin1, hsame, Finset.union_self]
    have c1 := List.toFinset_card_of_nodup nodup2
    rw [fin2] at c1
    have hlen : (date_codes (save_report_logs (save_report_logs t u d buf) u d buf2) u d).length
        = (buf.map (·.1)).length := c1.symm.trans c2
    rw [length_logs_for_date_eq, hlen, List.length_map]

/-- Witness for C3: three tracked behaviors, first report then an edit with
different statuses; both leave exactly three rows for the date. -/
theorem report_rows_exact_witness :
    (logs_for_date (save_report_logs [] 1 "2026-10-12"
        [("alcohol", "clean", some "low"), ("nicotine", "relapse", some "low"),
         ("gambling", "unclear", some "low")]) 1 "2026-10-12").length = 3
    ∧ (logs_for_date (save_report_logs (save_report_logs [] 1 "2026-10-12"
        [("alcohol", "clean", some "low"), ("nicotine", "relapse", some "low"),
         ("gambling", "unclear", some "low")]) 1 "2026-10-12"
        [("alcohol", "relapse", none), ("nicotine", "clean", none),
         ("gambling", "clean", none)]) 1 "2026-10-12").length = 3 :=
  report_rows_exact [] 1 "2026-10-12"
    [("alcohol", "clean", some "low"), ("nicotine", "relapse", some "low"),
     ("gambling", "unclear", some "low")]
    [("alcohol", "relapse", none), ("nicotine", "clean", none),
     ("gambling", "clean", none)]
    rfl (by decide) rfl

/-- C2 counterexample: the claim says a notification is recorded before
sending and survives a failed send. At the concrete slot below the table is
empty, the send fails with a network error, and afterwards no record exists
for the key — and a later tick attempts the send again the same local date. -/
theorem scheduler_records_after_send_cex :
    was_notification_sent
        (scheduler_send_slot [] (NotifKey.mk 1 "reminder" "2026-10-12")
          (.error .networkError) (.error .networkError)).1
        (NotifKey.mk 1 "reminder" "2026-10-12") = false
    ∧ (scheduler_send_slot
        (scheduler_send_slot [] (NotifKey.mk 1 "reminder" "2026-10-12")
          (.error .networkError) (.error .networkError)).1
        (NotifKey.mk 1 "reminder" "2026-10-12") (.ok ()) (.ok ())).2 = true := by
  decide

/-- C2 amended: the scheduler checks the record, then sends, and records only
after a successful send. A slot whose record already exists attempts no send;
a successful send appends the record, which no scheduler path removes; a
failed send leaves the table unchanged, so the reminder may be attempted
again by a later tick on the same local date. -/
theorem scheduler_send_then_record (t : NotificationsLog) (k : NotifKey)
    (a1 a2 : Except TgError Unit) :
    (was_notification_sent t k = true → scheduler_send_slot t k a1 a2 = (t, false))
    ∧ (was_notification_sent t k = false →
        (scheduler_send_slot t k a1 a2).2 = true)
    ∧ (was_notification_sent t k = false → _send_support_message a1 a2 = .ok () →
        (scheduler_send_slot t k a1 a2).1 = log_notification t k
        ∧ was_notification_sent (scheduler_send_slot t k a1 a2).1 k = true)
    ∧ (∀ e, was_notification_sent t k = false → _send_support_message a1 a2 = .error e →
        (scheduler_send_slot t k a1 a2).1 = t) := by
  refine ⟨?_, ?_, ?_, ?_⟩
  · intro hs
    simp [scheduler_send_slot, hs]
  · intro hs
    simp only [scheduler_send_slot, hs, Bool.false_eq_true, if_false]
    cases _send_support_message a1 a2 <;> simp
  · intro hs hok
    have hmem : k ∈ log_notification t k := by
      by_cases hk : k ∈ t
      · simp [log_notification, hk]
      · simp [log_notification, hk]
    have h1 : (scheduler_send_slot t k a1 a2).1 = log_notification t k := by
      simp [scheduler_send_slot, hs, hok]
    refine ⟨h1, ?_⟩
    rw [h1]
    simpa [was_notification_sent] using hmem
  · intro e hs herr
    simp [scheduler_send_slot, hs, herr]

/-- C5: a slot is due exactly when the circular minute-of-day distance is at
most 1; target 21:00 parses to 1260 minutes, a tick at 21:00 has distance 0
and matches, a tick at 21:02 has distance 2 and does not, and 23:59 against
00:00 has distance 1 and matches. -/
theorem tolerance_window_spec :
    (∀ c tm : Int, slot_due c tm = true ↔ _minutes_diff c tm ≤ 1)
    ∧ _parse_hhmm "21:00" = some 1260
    ∧ _minutes_diff 1260 1260 = 0 ∧ slot_due 1260 1260 = true
    ∧ _minutes_diff 1262 1260 = 2 ∧ slot_due 1262 1260 = false
    ∧ _minutes_diff 1439 0 = 1 ∧ slot_due 1439 0 = true := by
  refine ⟨?_, by decide, by decide, by decide, by decide, by decide, by decide, by decide⟩
  intro c tm
  unfold slot_due
  by_cases h : _minutes_diff c tm > 1
  · rw [if_pos h]
    constructor
    · intro hb
      exact absurd hb Bool.false_ne_true
    · intro hle
      exfalso
      omega
  · rw [if_neg h]
    constructor
    · intro _
      omega
    · intro _
      rfl

/-- C4: answering relapse for the behavior at index i records the status in
the session buffer, keeps the index unchanged and shows the
relapse-acknowledgment prompt; the subsequent continue advances the index to
i+1 exactly once and asks the behavior at i+1 — neither skipped nor
repeated. -/
theorem relapse_preserves_index (sess : Session)
    (h : sess.current_index + 1 < sess.addictions.length) :
    ((report_status sess "relapse").1.current_index = sess.current_index)
    ∧ (report_status sess "relapse").2 = Reply.relapse_support
    ∧ buf_lookup (report_status sess "relapse").1.logs
        (sess.addictions.get ⟨sess.current_index, by omega⟩) = some ("relapse", none)
    ∧ (report_continue (report_status sess "relapse").1).1.current_index
        = sess.current_index + 1
    ∧ (report_continue (report_status sess "relapse").1).2
        = Reply.ask_status (sess.addictions.get ⟨sess.current_index + 1, h⟩) := by
  have hi : sess.current_index < sess.addictions.length := Nat.lt_of_succ_lt h
  have hs1 : report_status sess "relapse"
      = ({ sess with
            logs := buf_set sess.logs
              (sess.addictions.get ⟨sess.current_index, hi⟩) "relapse"
            pending_relapse := true }, Reply.relapse_support) := by
    unfold report_status
    rw [dif_pos hi]
    simp only [beq_self_eq_true, if_true]
  rw [hs1]
  refine ⟨rfl, rfl, buf_lookup_set _ "relapse" sess.logs, ?_, ?_⟩
  · unfold report_continue
    split
    · rfl
    · rename_i h2
      exact absurd h h2
  · unfold report_continue
    split
    · rfl
    · rename_i h2
      exact absurd h h2

/-- Witness for C4: two tracked behaviors, relapse answered at index 0,
acknowledged; index lands on 1 and the second behavior is asked. -/
theorem relapse_preserves_index_witness :
    ((report_status c4sess "relapse").1.current_index = 0)
    ∧ (report_status c4sess "relapse").2 = Reply.relapse_support
    ∧ buf_lookup (report_status c4sess "relapse").1.logs "alcohol"
        = some ("relapse", none)
    ∧ (report_continue (report_status c4sess "relapse").1).1.current_index = 1
    ∧ (report_continue (report_status c4sess "relapse").1).2
        = Reply.ask_status "nicotine" :=
  relapse_preserves_index c4sess (by decide)

/-- C6: for any user and behavior, a table of three rows with dates
d1 < d2 < d3 (bytewise, with arbitrary gaps) and statuses clean, relapse,
clean yields streak 1: the date-descending scan counts the single leading
clean row and stops at the relapse. -/
theorem streak_leading_clean (u : Int) (code : String) (d1 d2 d3 : String)
    (cr1 cr2 cr3 : Option String)
    (h12 : strLt d1 d2 = true) (h23 : strLt d2 d3 = true) :
    get_streak [⟨u, d1, code, "clean", cr1⟩, ⟨u, d2, code, "relapse", cr2⟩,
      ⟨u, d3, code, "clean", cr3⟩] u code = 1 := by
  have h13 : strLt d1 d3 = true := charListLt_trans h12 h23
  have n32 : strLt d3 d2 = false := charListLt_asymm h23
  have n31 : strLt d3 d1 = false := charListLt_asymm h13
  have n21 : strLt d2 d1 = false := charListLt_asymm h12
  unfold get_streak
  have hfilter : ([⟨u, d1, code, "clean", cr1⟩, ⟨u, d2, code, "relapse", cr2⟩,
      ⟨u, d3, code, "clean", cr3⟩] : DailyLogs).filter
        (fun r => r.user_id == u && r.addiction_code == code)
      = [⟨u, d1, code, "clean", cr1⟩, ⟨u, d2, code, "relapse", cr2⟩,
         ⟨u, d3, code, "clean", cr3⟩] := by
    simp [List.filter]
  have m32 : charListLt d3.data d2.data = false := n32
  have m31 : charListLt d3.data d1.data = false := n31
  have m21 : charListLt d2.data d1.data = false := n21
  rw [hfilter]
  simp [sort_by_date_desc, insert_by_date_desc, count_leading_clean, strLt,
    m32, m31, m21]

/-- Witness for C6 with concrete gapped dates. -/
theorem streak_leading_clean_witness :
    get_streak [⟨1, "2026-09-20", "alcohol", "clean", none⟩,
      ⟨1, "2026-09-25", "alcohol", "relapse", none⟩,
      ⟨1, "2026-10-12", "alcohol", "clean", none⟩] 1 "alcohol" = 1 :=
  streak_leading_clean 1 "alcohol" "2026-09-20" "2026-09-25" "2026-10-12"
    none none none (by decide) (by decide)

/-- C7 counterexample: a stale report-status button pressed while the session
holds no report flow (leftover buffer data, no addiction list) is routed to
`report_status`, which answers an error toast and returns the session as it
was: the session is not cleared and the user is not shown the
session-expired/main-menu notice, contradicting the claim at this input. -/
theorem stale_report_status_cex :
    (handle_callback "report:status:clean" staleSession [] 7 true).2.1 = staleSession
    ∧ staleSession ≠ emptySession
    ∧ (handle_callback "report:status:clean" staleSession [] 7 true).2.2
        = Reply.toast "Ошибка состояния"
    ∧ Reply.toast "Ошибка состояния" ≠ Reply.main_menu_expired := by
  decide

/-- C7 amended: callbacks not matched by any handler fall to the catch-all,
which always clears the session and shows the state-outdated notice with the
main menu to onboarded users (a /start prompt otherwise), never a fatal
error; a report-status callback arriving with an invalid index — the stale
in-flow case — is instead answered with an error toast, leaving the session
unchanged. -/
theorem stale_callback_recovery (sess : Session) (ob : Bool) (status : String) :
    (unknown_callback sess ob).1 = emptySession
    ∧ (ob = true → (unknown_callback sess ob).2 = Reply.main_menu_expired)
    ∧ (ob = false → (unknown_callback sess ob).2 = Reply.start_prompt)
    ∧ (sess.addictions.length ≤ sess.current_index →
        report_status sess status = (sess, Reply.toast "Ошибка состояния")) := by
  refine ⟨rfl, ?_, ?_, ?_⟩
  · intro hob
    subst hob
    rfl
  · intro hob
    subst hob
    rfl
  · intro hidx
    unfold report_status
    rw [dif_neg (by omega)]

/-- C8 counterexample: with the environment variable unset the privileged id
defaults to the hardcoded 8513112712, so the admin check passes for that
user id and the admin menu opens — "unset" does not mean "no privileged
identity". -/
theorem admin_default_cex :
    is_admin (admin_user_id_from_env none) 8513112712 = true
    ∧ (menu_admin (admin_user_id_from_env none) 8513112712 emptySession).2
        = Reply.admin_menu := by
  decide

/-- C8 amended: `is_admin u` holds exactly when u equals the configured
privileged id. The id defaults to the hardcoded 8513112712 when the
environment variable is unset — never "no admin" — and configuring 0 makes
only user id 0 privileged; every non-matching user is rejected by the admin
entry point with a denial toast and no state change. -/
theorem admin_gate_spec (env : Option Int) (u : Int) (sess : Session) :
    (is_admin (admin_user_id_from_env env) u = true ↔ u = admin_user_id_from_env env)
    ∧ admin_user_id_from_env none = 8513112712
    ∧ admin_user_id_from_env (some 0) = 0
    ∧ (is_admin (admin_user_id_from_env env) u = false →
        menu_admin (admin_user_id_from_env env) u sess
          = (sess, Reply.toast "Доступ запрещён.")) := by
  refine ⟨?_, rfl, rfl, ?_⟩
  · simp [is_admin]
  · intro hfalse
    unfold menu_admin
    rw [if_pos (by simp [hfalse])]

/-- C9: provided the default zone resolves, timezone resolution is total for
every stored identifier: the conversation path and the scheduler path
compute the same zone, the result always exists (no exception reaches the
caller), and an unresolvable stored identifier falls back to the default
zone. -/
theorem timezone_resolution_total {α : Type} (zoneinfo : String → Option α)
    (dz : α) (hdefault : zoneinfo DEFAULT_TIMEZONE = some dz)
    (stored : Option String) :
    (get_user_zone zoneinfo stored).isSome = true
    ∧ scheduler_user_zone zoneinfo stored = get_user_zone zoneinfo stored
    ∧ (zoneinfo (get_user_timezone stored) = none →
        get_user_zone zoneinfo stored = some dz) := by
  refine ⟨?_, ?_, ?_⟩
  · unfold get_user_zone try_zoneinfo
    rcases hz : zoneinfo (get_user_timezone stored) with _ | z
    · simp [hz, hdefault]
    · simp [hz]
  · unfold scheduler_user_zone get_user_zone get_user_timezone
    cases stored <;> rfl
  · intro hz
    unfold get_user_zone try_zoneinfo
    rw [hz, hdefault]

/-- Witness for C9: a one-zone database resolving only the default, with an
invalid stored identifier. -/
theorem timezone_resolution_total_witness :
    ((get_user_zone (fun s => if s == "Europe/Amsterdam" then some 0 else none)
        (some "Mars/Olympus")).isSome = true)
    ∧ scheduler_user_zone (fun s => if s == "Europe/Amsterdam" then some 0 else none)
        (some "Mars/Olympus")
      = get_user_zone (fun s => if s == "Europe/Amsterdam" then some 0 else none)
        (some "Mars/Olympus")
    ∧ ((fun s => if s == "Europe/Amsterdam" then some 0 else none)
          (get_user_timezone (some "Mars/Olympus")) = (none : Option Nat) →
        get_user_zone (fun s => if s == "Europe/Amsterdam" then some 0 else none)
          (some "Mars/Olympus") = some 0) :=
  timezone_resolution_total
    (fun s => if s == "Europe/Amsterdam" then some 0 else none) 0 rfl
    (some "Mars/Olympus")

/-- C10: the report-completion callbacks are routed on the callback data
alone, so they fire from any session; with an empty buffer the handler
performs zero upserts — the daily-log table is returned unchanged — yet
still clears the session and shows the emergency-help (yes) or report-saved
(no) confirmation. -/
theorem report_support_empty_buffer_frame (sess : Session) (t : DailyLogs)
    (u : Int) (ob : Bool) (hempty : sess.logs = []) :
    handle_callback "report:support:yes" sess t u ob
      = (t, emptySession, Reply.emergency_help)
    ∧ handle_callback "report:support:no" sess t u ob
      = (t, emptySession, Reply.report_saved) := by
  have hsave : ∀ b, report_support sess t u b
      = (t, emptySession, if b then Reply.emergency_help else Reply.report_saved) := by
    intro b
    unfold report_support save_report_logs
    rw [hempty]
    rfl
  constructor
  · unfold handle_callback
    rw [if_neg (by decide), if_neg (by decide), if_neg (by decide),
      if_pos (by decide)]
    rw [hsave]
    rfl
  · unfold handle_callback
    rw [if_neg (by decide), if_neg (by decide), if_neg (by decide),
      if_pos (by decide)]
    rw [hsave]
    rfl

/-- Witness for C10: a session parked in the admin state with an empty
buffer; both completion callbacks leave the empty table empty. -/
theorem report_support_empty_buffer_frame_witness :
    handle_callback "report:support:yes" c10sess [] 5 true
      = ([], emptySession, Reply.emergency_help)
    ∧ handle_callback "report:support:no" c10sess [] 5 true
      = ([], emptySession, Reply.report_saved) :=
  report_support_empty_buffer_frame c10sess [] 5 true rfl

end Bot
